import Mathlib

/-!
Shallow embedding of `src/leetcode_sorter.py` (LeetCode difficulty sorter).

Python `int` is modelled as `ℤ`, Python `float` arithmetic as exact `ℚ`
(for values produced by exact divisions / `round(·, 2)`) and `ℝ` (for the
scoring engine, which uses `math.log1p`).  Missing dictionary keys are
modelled with `Option`; `dict.get(k, d)` becomes `Option.getD`.
Uncaught Python exceptions are modelled with `Except`.
-/

/-- The string sentinel `'N/A'` used as the default for missing title/slug
(lines 117-118 of the source). -/
def strNA : String := "N/A"

/-- The string `"Unknown"` used as the default of `DIFFICULTY_API_MAP.get`
(line 127 of the source). -/
def strUnknown : String := "Unknown"

/-- The difficulty string `"Easy"`. -/
def difficultyEasy : String := "Easy"

/-- The difficulty string `"Medium"`. -/
def difficultyMedium : String := "Medium"

/-- The difficulty string `"Hard"`. -/
def difficultyHard : String := "Hard"

/-- Embeds `DIFFICULTY_SCORE_BASE_MAP` (lines 18-22), accessed with default `0`
via `.get(problem['difficulty'], 0)` at line 158. -/
def DIFFICULTY_SCORE_BASE_MAP (d : String) : ℝ :=
  if d = difficultyEasy then 80
  else if d = difficultyMedium then 200
  else if d = difficultyHard then 450
  else 0

/-- Embeds `WEIGHTS["acceptance_rate_impact"]` (line 29). -/
def WEIGHTS_acceptance_rate_impact : ℝ := 300

/-- Embeds `WEIGHTS["low_total_accepted_penalty"]` (line 33). -/
def WEIGHTS_low_total_accepted_penalty : ℝ := 150

/-- Embeds `WEIGHTS["high_popularity_discount"]` (line 37). -/
def WEIGHTS_high_popularity_discount : ℝ := -80

/-- Embeds `WEIGHTS["newness_premium"]` (line 41). -/
def WEIGHTS_newness_premium : ℝ := 70

/-- Embeds `DIFFICULTY_API_MAP` (lines 45-49), accessed with default `"Unknown"`
via `.get(difficulty_level, "Unknown")` at line 127. -/
def DIFFICULTY_API_MAP (level : ℤ) : String :=
  if level = 1 then difficultyEasy
  else if level = 2 then difficultyMedium
  else if level = 3 then difficultyHard
  else strUnknown

/-- The `'stat'` sub-dictionary of a raw API record: the fields read in
`process_problems` (lines 116-120), each `Option` because `.get` defaults
are applied. -/
structure RawStat where
  frontend_question_id : Option ℤ
  question__title : Option String
  question__title_slug : Option String
  total_acs : Option ℤ
  total_submitted : Option ℤ
deriving DecidableEq

/-- The `'difficulty'` sub-dictionary of a raw API record (line 121). -/
structure RawDifficulty where
  level : Option ℤ
deriving DecidableEq

/-- A raw problem record as consumed by `process_problems` (lines 108-113):
the `stat` and `difficulty` blocks may be missing (falsy), `paid_only`
defaults to `False`. -/
structure RawProblem where
  stat : Option RawStat
  difficulty : Option RawDifficulty
  paid_only : Bool
deriving DecidableEq

/-- The dictionary appended at lines 130-139, plus the
`trueDifficultyScore` key added later by `calculate_true_difficulty_score`
(line 188); that key is absent (`none`) until the scoring engine runs. -/
structure CanonicalItem where
  id : ℤ
  title : String
  slug : String
  difficulty : String
  totalAccepted : ℤ
  totalSubmissions : ℤ
  acceptanceRate : ℚ
  url : String
  trueDifficultyScore : Option ℚ
deriving DecidableEq

/-- The URL synthesis `f"https://leetcode.com/problems/{slug}/"` (line 138). -/
def urlFor (slug : String) : String :=
  "https://leetcode.com/problems/" ++ slug ++ "/"

/-- One iteration of the `for prob_data in raw_problems_list` loop of
`process_problems` (lines 108-139), up to the `processed.append`:
`none` means the record was skipped by a `continue`. -/
def processStep (prob_data : RawProblem) : Option CanonicalItem :=
  match prob_data.stat, prob_data.difficulty with
  | some stat, some difficulty_info =>
    if prob_data.paid_only then none
    else
      let frontend_id := stat.frontend_question_id.getD 0
      let title := stat.question__title.getD strNA
      let slug := stat.question__title_slug.getD strNA
      let total_accepted_val := stat.total_acs.getD 0
      let total_submitted_val := stat.total_submitted.getD 0
      let difficulty_level := difficulty_info.level.getD 0
      if slug = strNA ∨ frontend_id = 0 ∨ difficulty_level = 0 then none
      else
        let acceptance_rate : ℚ :=
          if 0 < total_submitted_val then
            (total_accepted_val : ℚ) / (total_submitted_val : ℚ)
          else 0
        let difficulty_str := DIFFICULTY_API_MAP difficulty_level
        if difficulty_str = strUnknown then none
        else some
          { id := frontend_id
            title := title
            slug := slug
            difficulty := difficulty_str
            totalAccepted := total_accepted_val
            totalSubmissions := total_submitted_val
            acceptanceRate := acceptance_rate
            url := urlFor slug
            trueDifficultyScore := none }
  | _, _ => none

/-- The loop of `process_problems` (lines 108-148) with the three running
maxima (`max_frontend_id`, `max_submissions`, `max_accepted`, lines
104-106 and 142-144) threaded as accumulators. -/
def processLoop (rs : List RawProblem) (max_frontend_id max_submissions max_accepted : ℤ) :
    List CanonicalItem × ℤ × ℤ × ℤ :=
  match rs with
  | [] => ([], max_frontend_id, max_submissions, max_accepted)
  | prob_data :: rest =>
    match processStep prob_data with
    | none => processLoop rest max_frontend_id max_submissions max_accepted
    | some item =>
      let t := processLoop rest (max max_frontend_id item.id)
        (max max_submissions item.totalSubmissions) (max max_accepted item.totalAccepted)
      (item :: t.1, t.2)

/-- Embeds `process_problems` (lines 95-151): the early return `[], 0, 0, 0` for a
falsy (empty) input (lines 101-102), otherwise the loop followed by the
`max(1, ·)` floors of line 151. -/
def process_problems (raw_problems_list : List RawProblem) :
    List CanonicalItem × ℤ × ℤ × ℤ :=
  if raw_problems_list = [] then ([], 0, 0, 0)
  else
    let t := processLoop raw_problems_list 0 0 0
    (t.1, max 1 t.2.1, max 1 t.2.2.1, max 1 t.2.2.2)

/-- Embeds `math.log1p`: `log1p x = log (1 + x)`. -/
noncomputable def log1p (x : ℝ) : ℝ := Real.log (1 + x)

/-- The low-total-accepted penalty term of
`calculate_true_difficulty_score` (lines 168-173): guarded by
`problem['totalAccepted'] >= 0 and max_accepted_log > 0`. -/
noncomputable def lowAcceptedTerm (totalAccepted : ℤ) (max_accepted_log : ℝ) : ℝ :=
  if 0 ≤ totalAccepted ∧ 0 < max_accepted_log then
    (1 - log1p (totalAccepted : ℝ) / max_accepted_log) * WEIGHTS_low_total_accepted_penalty
  else 0

/-- The high-popularity discount term of `calculate_true_difficulty_score`
(lines 177-180): guarded by
`problem['totalSubmissions'] > 0 and max_submissions_log > 0`. -/
noncomputable def popularityTerm (totalSubmissions : ℤ) (max_submissions_log : ℝ) : ℝ :=
  if 0 < totalSubmissions ∧ 0 < max_submissions_log then
    log1p (totalSubmissions : ℝ) / max_submissions_log * WEIGHTS_high_popularity_discount
  else 0

/-- The newness premium term of `calculate_true_difficulty_score`
(lines 184-186): guarded by `max_frontend_id > 0`, with no clamping of
`problem['id'] / max_frontend_id`. -/
noncomputable def newnessTerm (id : ℤ) (max_frontend_id : ℤ) : ℝ :=
  if 0 < max_frontend_id then
    ((id : ℝ) / (max_frontend_id : ℝ)) * WEIGHTS_newness_premium
  else 0

/-- The accumulated `score` of `calculate_true_difficulty_score`
(lines 155-186), before the 2-decimal rounding of line 188. -/
noncomputable def trueScoreUnrounded (problem : CanonicalItem)
    (max_frontend_id : ℤ) (max_submissions_log max_accepted_log : ℝ) : ℝ :=
  DIFFICULTY_SCORE_BASE_MAP problem.difficulty
    + (1 - (problem.acceptanceRate : ℝ)) * WEIGHTS_acceptance_rate_impact
    + lowAcceptedTerm problem.totalAccepted max_accepted_log
    + popularityTerm problem.totalSubmissions max_submissions_log
    + newnessTerm problem.id max_frontend_id

/-- Python's `round(x, 2)` (line 188): the nearest 2-decimal value, as an
exact rational.  (Tie behaviour at exact `.005` boundaries is immaterial to
every property stated below.) -/
noncomputable def round2 (x : ℝ) : ℚ := ((round (100 * x) : ℤ) : ℚ) / 100

/-- Embeds `calculate_true_difficulty_score` (lines 153-189): stores
`round(score, 2)` under `trueDifficultyScore` and returns the item. -/
noncomputable def calculate_true_difficulty_score (problem : CanonicalItem)
    (max_frontend_id : ℤ) (max_submissions_log max_accepted_log : ℝ) : CanonicalItem :=
  { problem with
      trueDifficultyScore :=
        some (round2 (trueScoreUnrounded problem max_frontend_id
          max_submissions_log max_accepted_log)) }

/-- The per-item scoring as wired by `main` (lines 223-231): the log
parameters are `math.log1p(max)` when the maximum is positive, else `1.0`. -/
noncomputable def score_with_stats (problem : CanonicalItem)
    (max_id max_subs max_acs : ℤ) : CanonicalItem :=
  calculate_true_difficulty_score problem max_id
    (if 0 < max_subs then log1p (max_subs : ℝ) else 1.0)
    (if 0 < max_acs then log1p (max_acs : ℝ) else 1.0)

/-- The sort key `lambda p: p['trueDifficultyScore']` of line 234 (the
pipeline scores every item before sorting, so the key is always present). -/
def scoreKey (p : CanonicalItem) : ℚ := p.trueDifficultyScore.getD 0

/-- Stable insertion step for the descending sort: the element `x`, which
came earlier in the input, is placed before the first already-placed
element whose key is not greater than `x`'s. -/
def insertByScoreDesc (x : CanonicalItem) : List CanonicalItem → List CanonicalItem
  | [] => [x]
  | y :: ys =>
    if scoreKey x < scoreKey y then y :: insertByScoreDesc x ys
    else x :: y :: ys

/-- Embeds `sorted(scored_problems, key=lambda p: p['trueDifficultyScore'],
reverse=True)` (line 234): a stable descending sort by the rounded score,
modelled extensionally by stable insertion sort. -/
def sortByScoreDesc : List CanonicalItem → List CanonicalItem
  | [] => []
  | x :: xs => insertByScoreDesc x (sortByScoreDesc xs)

/-- Embeds `CACHE_EXPIRY_DAYS` (line 10). -/
def CACHE_EXPIRY_DAYS : ℤ := 1

/-- What reading the cache file (`open` + `json.load`, lines 83-84) would
produce: a parsed payload, an I/O failure while reading, or content that is
not valid JSON. -/
inductive CacheReadOutcome where
  | ok (problems : List RawProblem)
  | ioFailure
  | corruptJson
deriving DecidableEq

/-- The observable state of the cache file for one run: whether
`os.path.exists(CACHE_FILE)` holds, its modification time, and what a read
of its content would yield. -/
structure CacheFileState where
  fileExists : Bool
  mtime : ℤ
  readOutcome : CacheReadOutcome
deriving DecidableEq

/-- Uncaught exceptions that can escape `load_problems_from_cache`:
an `OSError` from `open`/read, or a `json.JSONDecodeError` from
`json.load`.  Neither is caught anywhere in the program. -/
inductive RunError where
  | cacheReadFailure
  | cacheDecodeFailure
deriving DecidableEq

/-- Embeds `load_problems_from_cache` (lines 76-87): returns `some payload` on a
fresh cache hit, `none` on a missing file or expired cache, and
`Except.error` when `open`/`json.load` raises (there is no `try` in the
function, so the exception propagates). -/
def load_problems_from_cache (fs : CacheFileState) (now : ℤ) :
    Except RunError (Option (List RawProblem)) :=
  if fs.fileExists then
    if now - fs.mtime < CACHE_EXPIRY_DAYS * 24 * 60 * 60 then
      match fs.readOutcome with
      | .ok problems => .ok (some problems)
      | .ioFailure => .error .cacheReadFailure
      | .corruptJson => .error .cacheDecodeFailure
    else .ok none
  else .ok none

/-- The raw-data resolution step of `main` (lines 197-209):
`load_problems_from_cache()` (an exception there propagates out of `main`),
then on a falsy result the fetch collaborator (`fetched = none` models a
failed fetch, `some l` a successful one); `.ok none` models `main`
returning early with no data, `.ok (some l)` models proceeding with `l`. -/
def main_resolve_raw_problems (fs : CacheFileState) (now : ℤ)
    (fetched : Option (List RawProblem)) :
    Except RunError (Option (List RawProblem)) :=
  match load_problems_from_cache fs now with
  | .error e => .error e
  | .ok cached =>
    let raw := cached.getD []
    if raw = [] then
      match fetched with
      | some fetched_data =>
        if fetched_data = [] then .ok none else .ok (some fetched_data)
      | none => .ok none
    else .ok (some raw)

/-- The successive on-disk contents of the cache file during
`save_problems_to_cache` (lines 89-93): `open(CACHE_FILE, 'w')` first
truncates the file, then `json.dump` writes the payload; a crash between
the two leaves the truncated state on disk. -/
inductive CacheWriteState where
  | truncated
  | written (problems : List RawProblem)
deriving DecidableEq

/-- Embeds `save_problems_to_cache` (lines 89-93) as the sequence of on-disk
states it moves the cache file through: truncation by `open(·, 'w')`,
then the complete dump. -/
def save_problems_to_cache_states (problems : List RawProblem) :
    List CacheWriteState :=
  [CacheWriteState.truncated, CacheWriteState.written problems]

/-- What a subsequent `json.load` of the cache file sees in each on-disk
state left by `save_problems_to_cache`: a truncated (empty) file is not
valid JSON. -/
def readOutcomeOfWriteState : CacheWriteState → CacheReadOutcome
  | .truncated => .corruptJson
  | .written problems => .ok problems

/-- A sample title string for concrete test records. -/
def sampleTitle : String := "T"

/-- A sample slug string for concrete test records. -/
def sampleSlug : String := "two-sum"

/-- The empty string. -/
def emptyStr : String := ""

/-- A concrete raw record that is filtered out (paid-only), used to
exercise the fully-filtered non-empty input. -/
def rawPaidOnly : RawProblem :=
  { stat := some
      { frontend_question_id := some 1
        question__title := some sampleTitle
        question__title_slug := some sampleSlug
        total_acs := some 10
        total_submitted := some 20 }
    difficulty := some { level := some 1 }
    paid_only := true }

/-- A concrete raw record whose slug is present but empty, and whose other
fields are valid. -/
def rawEmptySlug : RawProblem :=
  { stat := some
      { frontend_question_id := some 1
        question__title := some sampleTitle
        question__title_slug := some emptyStr
        total_acs := some 0
        total_submitted := some 0 }
    difficulty := some { level := some 1 }
    paid_only := false }

/-- A concrete raw record with more accepted submissions than total
submissions (`total_acs = 10 > total_submitted = 5`). -/
def rawOverUnity : RawProblem :=
  { stat := some
      { frontend_question_id := some 7
        question__title := some sampleTitle
        question__title_slug := some sampleSlug
        total_acs := some 10
        total_submitted := some 5 }
    difficulty := some { level := some 3 }
    paid_only := false }

/-- The concrete item of the spec's worked scoring example:
`{difficulty: Hard, acceptanceRate: 0.10, totalAccepted: 500,
totalSubmitted: 5000, id: 2900}`. -/
def itemC3 : CanonicalItem :=
  { id := 2900
    title := sampleTitle
    slug := sampleSlug
    difficulty := difficultyHard
    totalAccepted := 500
    totalSubmissions := 5000
    acceptanceRate := 1 / 10
    url := urlFor sampleSlug
    trueDifficultyScore := none }

/-- A cache-file state whose content read fails with an I/O error while
the file exists and is fresh (mtime 0, read at time 0). -/
def fsReadFails : CacheFileState :=
  { fileExists := true, mtime := 0, readOutcome := CacheReadOutcome.ioFailure }

/-- The canonical item that `process_problems` produces from
`rawOverUnity`: its acceptance rate is `10 / 5 = 2`. -/
def itemOverUnity : CanonicalItem :=
  { id := 7
    title := sampleTitle
    slug := sampleSlug
    difficulty := difficultyHard
    totalAccepted := 10
    totalSubmissions := 5
    acceptanceRate := 2
    url := urlFor sampleSlug
    trueDifficultyScore := none }

/-- A raw stat block whose slug key is missing entirely. -/
def statMissingSlug : RawStat :=
  { frontend_question_id := some 5
    question__title := some sampleTitle
    question__title_slug := none
    total_acs := some 1
    total_submitted := some 2 }

/-- A difficulty block with level 1. -/
def diffLevelOne : RawDifficulty := { level := some 1 }

/-- A cache-file state with no cache file on disk. -/
def fsAbsent : CacheFileState :=
  { fileExists := false, mtime := 0, readOutcome := CacheReadOutcome.ok [] }

/-- A raw stat block whose slug is present but equal to the literal
sentinel string `'N/A'`. -/
def statLiteralNASlug : RawStat :=
  { frontend_question_id := some 5
    question__title := some sampleTitle
    question__title_slug := some strNA
    total_acs := some 1
    total_submitted := some 2 }

/-- A cache-file state whose content is present and fresh but is not
valid JSON. -/
def fsCorrupt : CacheFileState :=
  { fileExists := true, mtime := 0, readOutcome := CacheReadOutcome.corruptJson }

theorem processLoop_items_nil (l : List RawProblem) :
    ∀ a b c : ℤ, (processLoop l a b c).1 = [] → (processLoop l a b c).2 = (a, b, c) := by
  induction l with
  | nil => intro a b c _; rfl
  | cons r rest ih =>
    intro a b c h
    simp only [processLoop] at h ⊢
    cases hs : processStep r with
    | none =>
      simp only [hs] at h ⊢
      exact ih a b c h
    | some item => simp [hs] at h

theorem processLoop_items (l : List RawProblem) :
    ∀ a b c : ℤ, (processLoop l a b c).1 = l.filterMap processStep := by
  induction l with
  | nil => intro a b c; rfl
  | cons r rest ih =>
    intro a b c
    simp only [processLoop, List.filterMap_cons]
    cases hs : processStep r with
    | none => simp only [hs]; exact ih a b c
    | some item => simp only [hs]; rw [ih]

theorem process_problems_items (l : List RawProblem) :
    (process_problems l).1 = l.filterMap processStep := by
  unfold process_problems
  by_cases h : l = []
  · subst h; rfl
  · rw [if_neg h]
    exact processLoop_items l 0 0 0

theorem processStep_rate (r : RawProblem) (p : CanonicalItem)
    (h : processStep r = some p) :
    p.acceptanceRate =
      if 0 < p.totalSubmissions then
        (p.totalAccepted : ℚ) / (p.totalSubmissions : ℚ)
      else 0 := by
  rcases r with ⟨st, di, po⟩
  rcases st with _ | st
  · simp [processStep] at h
  rcases di with _ | di
  · simp [processStep] at h
  simp only [processStep] at h
  split_ifs at h
  all_goals rw [Option.some_inj] at h
  all_goals subst h
  all_goals dsimp only
  all_goals split_ifs
  all_goals simp_all

/-- C1: the claim that all three corpus maxima returned by
`process_problems` are at least 1 for every input fails on the empty
input, where the early return yields `([], 0, 0, 0)`, not `([], 1, 1, 1)`. -/
theorem claim_C1_counterexample :
    process_problems [] = ([], 0, 0, 0) ∧
      ¬ 1 ≤ (process_problems ([] : List RawProblem)).2.1 := by
  constructor
  · rfl
  · decide

/-- C1 (amended): for every non-empty input, each of the three corpus
maxima returned by `process_problems` is at least 1, and if every record
is filtered out the result is an empty item list with maxima `(1, 1, 1)`;
the empty input instead returns maxima `(0, 0, 0)`. -/
theorem claim_C1_amended (l : List RawProblem) (hne : l ≠ []) :
    ((1 ≤ (process_problems l).2.1 ∧ 1 ≤ (process_problems l).2.2.1 ∧
        1 ≤ (process_problems l).2.2.2) ∧
      ((process_problems l).1 = [] → (process_problems l).2 = (1, 1, 1))) ∧
    process_problems [] = ([], 0, 0, 0) := by
  have hp : process_problems l =
      ((processLoop l 0 0 0).1, max 1 (processLoop l 0 0 0).2.1,
        max 1 (processLoop l 0 0 0).2.2.1, max 1 (processLoop l 0 0 0).2.2.2) := by
    simp only [process_problems, if_neg hne]
  refine ⟨?_, rfl⟩
  rw [hp]
  refine ⟨⟨le_max_left 1 _, le_max_left 1 _, le_max_left 1 _⟩, ?_⟩
  intro h
  have h0 := processLoop_items_nil l 0 0 0 h
  rw [h0]
  simp

/-- Witness for C1 (amended) at the concrete fully-filtered input
`[rawPaidOnly]`. -/
theorem claim_C1_witness :
    ((1 ≤ (process_problems [rawPaidOnly]).2.1 ∧
        1 ≤ (process_problems [rawPaidOnly]).2.2.1 ∧
        1 ≤ (process_problems [rawPaidOnly]).2.2.2) ∧
      ((process_problems [rawPaidOnly]).1 = [] →
        (process_problems [rawPaidOnly]).2 = (1, 1, 1))) ∧
    process_problems [] = ([], 0, 0, 0) :=
  claim_C1_amended [rawPaidOnly] (by simp)

theorem process_problems_overUnity :
    (process_problems [rawOverUnity]).1 = [itemOverUnity] := by
  have h1 : ¬ (sampleSlug = strNA) := by decide
  have h2 : ¬ (difficultyHard = strUnknown) := by decide
  norm_num [process_problems, processLoop, processStep, rawOverUnity, itemOverUnity,
    DIFFICULTY_API_MAP, h1, h2]

/-- C2: the claim that every produced `acceptanceRate` lies in `[0, 1]`
fails on a raw record with `total_acs = 10 > total_submitted = 5`, whose
item has acceptance rate 2. -/
theorem claim_C2_counterexample :
    (process_problems [rawOverUnity]).1.map CanonicalItem.acceptanceRate = [2] ∧
      ¬ ((2 : ℚ) ≤ 1) := by
  rw [process_problems_overUnity]
  constructor
  · simp [itemOverUnity]
  · norm_num

/-- C2 (amended): every item produced by `process_problems` has
`acceptanceRate = totalAccepted / totalSubmissions` when
`totalSubmissions > 0` and `0` otherwise; it lies in `[0, 1]` whenever
`0 ≤ totalAccepted ≤ totalSubmissions`. -/
theorem claim_C2_amended (l : List RawProblem) (p : CanonicalItem)
    (hp : p ∈ (process_problems l).1) :
    (0 < p.totalSubmissions →
        p.acceptanceRate = (p.totalAccepted : ℚ) / (p.totalSubmissions : ℚ)) ∧
    (¬ 0 < p.totalSubmissions → p.acceptanceRate = 0) ∧
    (0 ≤ p.totalAccepted → p.totalAccepted ≤ p.totalSubmissions →
        0 ≤ p.acceptanceRate ∧ p.acceptanceRate ≤ 1) := by
  rw [process_problems_items] at hp
  obtain ⟨r, _, hstep⟩ := List.mem_filterMap.mp hp
  have hrate := processStep_rate r p hstep
  refine ⟨?_, ?_, ?_⟩
  · intro hs; rw [hrate, if_pos hs]
  · intro hs; rw [hrate, if_neg hs]
  · intro ha has
    by_cases hs : 0 < p.totalSubmissions
    · rw [hrate, if_pos hs]
      constructor
      · exact div_nonneg (by exact_mod_cast ha) (by exact_mod_cast hs.le)
      · rw [div_le_one (by exact_mod_cast hs)]
        exact_mod_cast has
    · rw [hrate, if_neg hs]
      norm_num

/-- Witness for C2 (amended) at the concrete input `[rawOverUnity]` and
its produced item. -/
theorem claim_C2_witness :
    (0 < itemOverUnity.totalSubmissions →
        itemOverUnity.acceptanceRate =
          (itemOverUnity.totalAccepted : ℚ) / (itemOverUnity.totalSubmissions : ℚ)) ∧
    (¬ 0 < itemOverUnity.totalSubmissions → itemOverUnity.acceptanceRate = 0) ∧
    (0 ≤ itemOverUnity.totalAccepted →
      itemOverUnity.totalAccepted ≤ itemOverUnity.totalSubmissions →
        0 ≤ itemOverUnity.acceptanceRate ∧ itemOverUnity.acceptanceRate ≤ 1) :=
  claim_C2_amended [rawOverUnity] itemOverUnity
    (by rw [process_problems_overUnity]; exact List.mem_singleton.mpr rfl)

/-- C6: the claim that a record with an empty slug is absent from the
output of `process_problems` fails: `rawEmptySlug` has slug `""` (present
but empty, so distinct from the `'N/A'` missing-key sentinel) and its item
appears in the output. -/
theorem claim_C6_counterexample :
    (process_problems [rawEmptySlug]).1.map CanonicalItem.slug = [emptyStr] := by
  decide

/-- C6 (amended): the output of `process_problems` is exactly the records
surviving `processStep`, and every record with a missing-or-zero
identifier, a missing slug key or a slug equal to the literal sentinel
`'N/A'`, or a difficulty level outside `{1, 2, 3}` is skipped by
`processStep` (an empty-but-present slug, however, is kept). -/
theorem claim_C6_amended :
    (∀ l : List RawProblem, (process_problems l).1 = l.filterMap processStep) ∧
    ∀ (st : RawStat) (di : RawDifficulty) (po : Bool),
      (st.frontend_question_id.getD 0 = 0 ∨
        (st.question__title_slug = none ∨ st.question__title_slug = some strNA) ∨
        (di.level.getD 0 ≠ 1 ∧ di.level.getD 0 ≠ 2 ∧ di.level.getD 0 ≠ 3)) →
      processStep ⟨some st, some di, po⟩ = none := by
  refine ⟨process_problems_items, ?_⟩
  intro st di po h
  rcases h with h | (h | h) | ⟨h1, h2, h3⟩
  · simp [processStep, h]
  · simp [processStep, h]
  · simp [processStep, h]
  · simp [processStep, DIFFICULTY_API_MAP, h1, h2, h3]

/-- Witness for C6 (amended) at the concrete records with a missing slug
key and with a slug equal to the literal sentinel `'N/A'`. -/
theorem claim_C6_witness :
    (process_problems [rawEmptySlug]).1 = [rawEmptySlug].filterMap processStep ∧
    processStep ⟨some statMissingSlug, some diffLevelOne, false⟩ = none ∧
    processStep ⟨some statLiteralNASlug, some diffLevelOne, false⟩ = none :=
  ⟨claim_C6_amended.1 [rawEmptySlug],
    claim_C6_amended.2 statMissingSlug diffLevelOne false
      (Or.inr (Or.inl (Or.inl rfl))),
    claim_C6_amended.2 statLiteralNASlug diffLevelOne false
      (Or.inr (Or.inl (Or.inr rfl)))⟩

theorem mem_insertByScoreDesc {z x : CanonicalItem} :
    ∀ l : List CanonicalItem, z ∈ insertByScoreDesc x l ↔ z = x ∨ z ∈ l := by
  intro l
  induction l with
  | nil => simp [insertByScoreDesc]
  | cons y ys ih =>
    simp only [insertByScoreDesc]
    split_ifs with h
    · simp only [List.mem_cons, ih]
      tauto
    · simp [List.mem_cons]

theorem insertByScoreDesc_pairwise (x : CanonicalItem) :
    ∀ l : List CanonicalItem,
      l.Pairwise (fun a b => scoreKey b ≤ scoreKey a) →
      (insertByScoreDesc x l).Pairwise (fun a b => scoreKey b ≤ scoreKey a) := by
  intro l
  induction l with
  | nil => intro _; simp [insertByScoreDesc]
  | cons y ys ih =>
    intro h
    rw [List.pairwise_cons] at h
    simp only [insertByScoreDesc]
    split_ifs with hxy
    · rw [List.pairwise_cons]
      refine ⟨?_, ih h.2⟩
      intro z hz
      rcases (mem_insertByScoreDesc ys).mp hz with rfl | hz
      · exact le_of_lt hxy
      · exact h.1 z hz
    · rw [List.pairwise_cons]
      refine ⟨?_, List.pairwise_cons.mpr h⟩
      intro z hz
      rcases List.mem_cons.mp hz with rfl | hz
      · exact not_lt.mp hxy
      · exact le_trans (h.1 z hz) (not_lt.mp hxy)

theorem sortByScoreDesc_pairwise (l : List CanonicalItem) :
    (sortByScoreDesc l).Pairwise (fun a b => scoreKey b ≤ scoreKey a) := by
  induction l with
  | nil => simp [sortByScoreDesc]
  | cons x xs ih => exact insertByScoreDesc_pairwise x _ ih

theorem filter_insertByScoreDesc (x : CanonicalItem) (q : ℚ) :
    ∀ l : List CanonicalItem,
      (insertByScoreDesc x l).filter (fun p => decide (scoreKey p = q)) =
        if scoreKey x = q then
          x :: l.filter (fun p => decide (scoreKey p = q))
        else l.filter (fun p => decide (scoreKey p = q)) := by
  intro l
  induction l with
  | nil =>
    simp only [insertByScoreDesc, List.filter]
    split_ifs with h <;> simp_all
  | cons y ys ih =>
    simp only [insertByScoreDesc]
    by_cases hxy : scoreKey x < scoreKey y
    · rw [if_pos hxy]
      simp only [List.filter_cons, ih]
      by_cases hyq : scoreKey y = q <;> by_cases hxq : scoreKey x = q
      · exact absurd hxy (by rw [hxq, hyq]; exact lt_irrefl q)
      · simp [hyq, hxq]
      · simp [hyq, hxq]
      · simp [hyq, hxq]
    · rw [if_neg hxy]
      simp only [List.filter_cons]
      by_cases hxq : scoreKey x = q <;> simp [hxq]

theorem filter_sortByScoreDesc (q : ℚ) :
    ∀ l : List CanonicalItem,
      (sortByScoreDesc l).filter (fun p => decide (scoreKey p = q)) =
        l.filter (fun p => decide (scoreKey p = q)) := by
  intro l
  induction l with
  | nil => rfl
  | cons x xs ih =>
    simp only [sortByScoreDesc, List.filter_cons, filter_insertByScoreDesc x q _, ih]
    by_cases hxq : scoreKey x = q <;> simp [hxq]

/-- C4: the sort of line 234 is a stable descending sort by the stored
rounded score: for every scored item sequence, the output is pairwise
non-increasing in `scoreKey`, and for every score value `q` the
subsequence of items with that score is exactly the corresponding
subsequence of the input, i.e. equal-score items keep their relative
input order. -/
theorem claim_C4 (l : List CanonicalItem) :
    (sortByScoreDesc l).Pairwise (fun a b => scoreKey b ≤ scoreKey a) ∧
    ∀ q : ℚ,
      (sortByScoreDesc l).filter (fun p => decide (scoreKey p = q)) =
        l.filter (fun p => decide (scoreKey p = q)) :=
  ⟨sortByScoreDesc_pairwise l, fun q => filter_sortByScoreDesc q l⟩

/-- C10: scoring an item only sets `trueDifficultyScore`: every other
field is unchanged and the result is the input item with exactly that one
field replaced by the rounded score. -/
theorem claim_C10 (p : CanonicalItem) (mid : ℤ) (msl mal : ℝ) :
    (calculate_true_difficulty_score p mid msl mal).id = p.id ∧
    (calculate_true_difficulty_score p mid msl mal).title = p.title ∧
    (calculate_true_difficulty_score p mid msl mal).slug = p.slug ∧
    (calculate_true_difficulty_score p mid msl mal).difficulty = p.difficulty ∧
    (calculate_true_difficulty_score p mid msl mal).totalAccepted = p.totalAccepted ∧
    (calculate_true_difficulty_score p mid msl mal).totalSubmissions = p.totalSubmissions ∧
    (calculate_true_difficulty_score p mid msl mal).acceptanceRate = p.acceptanceRate ∧
    (calculate_true_difficulty_score p mid msl mal).url = p.url ∧
    calculate_true_difficulty_score p mid msl mal =
      { p with
          trueDifficultyScore := some (round2 (trueScoreUnrounded p mid msl mal)) } :=
  ⟨rfl, rfl, rfl, rfl, rfl, rfl, rfl, rfl, rfl⟩

/-- C8: the claim that the newness contribution uses `id / maxId` clamped
into `[0, 1]` (and hence never exceeds the newness weight) fails: the code
does not clamp, and for `id = 6000`, `maxId = 3000` the contribution is
`140 > 70`. -/
theorem claim_C8_counterexample :
    newnessTerm 6000 3000 = 140 ∧
      ¬ newnessTerm 6000 3000 ≤ WEIGHTS_newness_premium := by
  have h : newnessTerm 6000 3000 = 140 := by
    rw [newnessTerm, if_pos (by norm_num : (0:ℤ) < 3000), WEIGHTS_newness_premium]
    norm_num
  refine ⟨h, ?_⟩
  rw [h, WEIGHTS_newness_premium]
  norm_num

/-- C8 (amended): the newness contribution is `(id / maxId) * W_newness`
when `maxId > 0` (and `0` otherwise), with no clamping; it lies in
`[0, W_newness]` whenever `0 ≤ id ≤ maxId`, but can exceed `W_newness`
when `id > maxId`. -/
theorem claim_C8_amended (pid mid : ℤ) (h0 : 0 ≤ pid) (h1 : pid ≤ mid) :
    0 ≤ newnessTerm pid mid ∧ newnessTerm pid mid ≤ WEIGHTS_newness_premium := by
  rw [newnessTerm, WEIGHTS_newness_premium]
  split_ifs with hmid
  · have hmr : (0:ℝ) < (mid:ℝ) := by exact_mod_cast hmid
    constructor
    · exact mul_nonneg (div_nonneg (by exact_mod_cast h0) hmr.le) (by norm_num)
    · have hd : (pid:ℝ) / (mid:ℝ) ≤ 1 := (div_le_one hmr).mpr (by exact_mod_cast h1)
      calc (pid:ℝ) / (mid:ℝ) * 70 ≤ 1 * 70 :=
            mul_le_mul_of_nonneg_right hd (by norm_num)
        _ = 70 := one_mul 70
  · norm_num

/-- Witness for C8 (amended) at `id = 2900`, `maxId = 3000`. -/
theorem claim_C8_witness :
    0 ≤ newnessTerm 2900 3000 ∧ newnessTerm 2900 3000 ≤ WEIGHTS_newness_premium :=
  claim_C8_amended 2900 3000 (by norm_num) (by norm_num)

/-- C7: the claim that a read I/O failure during cache load degrades to a
cache miss fails: `load_problems_from_cache` has no exception handler, so
the failure propagates out of `main` (modelled as `Except.error`) even
when a fetch would have succeeded. -/
theorem claim_C7_counterexample :
    load_problems_from_cache fsReadFails 0 =
      Except.error RunError.cacheReadFailure ∧
    main_resolve_raw_problems fsReadFails 0 (some [rawOverUnity]) =
      Except.error RunError.cacheReadFailure := by
  constructor <;> rfl

/-- C7 (amended): only a missing cache file or an expired cache degrade to
a cache-miss (`Except.ok none`, after which `main` proceeds to fetch); a
read I/O failure, or corrupt (undecodable) content, on an existing fresh
cache file instead raises an uncaught exception that aborts the run. -/
theorem claim_C7_amended (fs : CacheFileState) (now : ℤ)
    (fetched : Option (List RawProblem)) :
    ((fs.fileExists = false ∨
        ¬ now - fs.mtime < CACHE_EXPIRY_DAYS * 24 * 60 * 60) →
      load_problems_from_cache fs now = Except.ok none) ∧
    (fs.fileExists = true →
      now - fs.mtime < CACHE_EXPIRY_DAYS * 24 * 60 * 60 →
      fs.readOutcome = CacheReadOutcome.ioFailure →
        main_resolve_raw_problems fs now fetched =
          Except.error RunError.cacheReadFailure) ∧
    (fs.fileExists = true →
      now - fs.mtime < CACHE_EXPIRY_DAYS * 24 * 60 * 60 →
      fs.readOutcome = CacheReadOutcome.corruptJson →
        main_resolve_raw_problems fs now fetched =
          Except.error RunError.cacheDecodeFailure) := by
  refine ⟨?_, ?_, ?_⟩
  · rintro (h | h)
    · simp [load_problems_from_cache, h]
    · simp [load_problems_from_cache, h]
  · intro hex hfresh hio
    simp [main_resolve_raw_problems, load_problems_from_cache, hex, hfresh, hio]
  · intro hex hfresh hio
    simp [main_resolve_raw_problems, load_problems_from_cache, hex, hfresh, hio]

/-- Witness for C7 (amended): a missing cache file loads as a miss, and a
fresh file whose read fails with an I/O error or holds corrupt content
aborts the run. -/
theorem claim_C7_witness :
    load_problems_from_cache fsAbsent 5 = Except.ok none ∧
    main_resolve_raw_problems fsReadFails 0 (some [rawOverUnity]) =
      Except.error RunError.cacheReadFailure ∧
    main_resolve_raw_problems fsCorrupt 0 (some [rawOverUnity]) =
      Except.error RunError.cacheDecodeFailure :=
  ⟨(claim_C7_amended fsAbsent 5 none).1 (Or.inl rfl),
    (claim_C7_amended fsReadFails 0 (some [rawOverUnity])).2.1 rfl
      (by norm_num [fsReadFails, CACHE_EXPIRY_DAYS]) rfl,
    (claim_C7_amended fsCorrupt 0 (some [rawOverUnity])).2.2 rfl
      (by norm_num [fsCorrupt, CACHE_EXPIRY_DAYS]) rfl⟩

/-- C9: the claim that `save_problems_to_cache` replaces the entry
atomically fails: the save opens the cache file with mode `'w'`, which
truncates it before `json.dump` writes, so its first on-disk state is a
truncated entry, and a subsequent fresh load of that state raises a decode
error. -/
theorem claim_C9_counterexample :
    (save_problems_to_cache_states [rawOverUnity]).head? =
      some CacheWriteState.truncated ∧
    load_problems_from_cache
      { fileExists := true, mtime := 0,
        readOutcome := readOutcomeOfWriteState CacheWriteState.truncated } 0 =
      Except.error RunError.cacheDecodeFailure := by
  constructor <;> rfl

/-- C9 (amended): the save writes the cache file in place, not via a
temporary file: its final on-disk state holds exactly the payload, but it
passes through an intermediate truncated state, and a crash there leaves a
corrupt entry on which a subsequent fresh load fails with a decode error. -/
theorem claim_C9_amended (problems : List RawProblem) (now mtime : ℤ)
    (hfresh : now - mtime < CACHE_EXPIRY_DAYS * 24 * 60 * 60) :
    (save_problems_to_cache_states problems).getLast? =
      some (CacheWriteState.written problems) ∧
    ∃ s ∈ save_problems_to_cache_states problems,
      s ≠ CacheWriteState.written problems ∧
      load_problems_from_cache
        { fileExists := true, mtime := mtime,
          readOutcome := readOutcomeOfWriteState s } now =
        Except.error RunError.cacheDecodeFailure := by
  refine ⟨rfl, CacheWriteState.truncated, ?_, ?_, ?_⟩
  · simp [save_problems_to_cache_states]
  · simp
  · simp [load_problems_from_cache, hfresh, readOutcomeOfWriteState]

/-- Witness for C9 (amended) at a concrete payload and fresh timestamps. -/
theorem claim_C9_witness :
    (save_problems_to_cache_states [rawPaidOnly]).getLast? =
      some (CacheWriteState.written [rawPaidOnly]) ∧
    ∃ s ∈ save_problems_to_cache_states [rawPaidOnly],
      s ≠ CacheWriteState.written [rawPaidOnly] ∧
      load_problems_from_cache
        { fileExists := true, mtime := 0,
          readOutcome := readOutcomeOfWriteState s } 0 =
        Except.error RunError.cacheDecodeFailure :=
  claim_C9_amended [rawPaidOnly] 0 0 (by norm_num [CACHE_EXPIRY_DAYS])

theorem round2_mono {x y : ℝ} (h : x ≤ y) : round2 x ≤ round2 y := by
  rw [round2, round2]
  have h2 : round (100 * x) ≤ round (100 * y) := by
    rw [round_eq, round_eq]
    exact Int.floor_le_floor (by linarith)
  have h3 : ((round (100 * x) : ℤ) : ℚ) ≤ ((round (100 * y) : ℤ) : ℚ) := by
    exact_mod_cast h2
  gcongr

theorem popularityTerm_anti {s1 s2 : ℤ} (h : s1 ≤ s2) (msl : ℝ) :
    popularityTerm s2 msl ≤ popularityTerm s1 msl := by
  rw [popularityTerm, popularityTerm, WEIGHTS_high_popularity_discount]
  split_ifs with h2 h1 h1
  · have hs1 : (0:ℝ) < (s1:ℝ) := by exact_mod_cast h1.1
    have hc : (s1:ℝ) ≤ (s2:ℝ) := by exact_mod_cast h
    have hl : log1p (s1:ℝ) ≤ log1p (s2:ℝ) := by
      rw [log1p, log1p]
      exact Real.log_le_log (by linarith) (by linarith)
    have hd : log1p (s1:ℝ) / msl ≤ log1p (s2:ℝ) / msl :=
      (div_le_div_iff_of_pos_right h2.2).mpr hl
    nlinarith [hd]
  · have hs2 : (1:ℝ) ≤ 1 + (s2:ℝ) := by
      have : (1:ℝ) ≤ (s2:ℝ) := by exact_mod_cast h2.1
      linarith
    have hlog : 0 ≤ log1p (s2:ℝ) := by
      rw [log1p]; exact Real.log_nonneg hs2
    have : 0 ≤ log1p (s2:ℝ) / msl := div_nonneg hlog h2.2.le
    nlinarith [this]
  · exact absurd ⟨lt_of_lt_of_le h1.1 h, h1.2⟩ h2
  · exact le_refl 0

theorem newnessTerm_mono {i1 i2 : ℤ} (h : i1 ≤ i2) (mid : ℤ) :
    newnessTerm i1 mid ≤ newnessTerm i2 mid := by
  rw [newnessTerm, newnessTerm]
  split_ifs with hm
  · have hmr : (0:ℝ) < (mid:ℝ) := by exact_mod_cast hm
    have hle : (i1:ℝ) ≤ (i2:ℝ) := by exact_mod_cast h
    have : (i1:ℝ) / (mid:ℝ) ≤ (i2:ℝ) / (mid:ℝ) := by gcongr
    rw [WEIGHTS_newness_premium]
    nlinarith [this]
  · exact le_refl 0

/-- C5: the rounded score is monotone in each of the three fields with
everything else fixed: decreasing `acceptanceRate` never decreases it,
increasing `totalSubmissions` (with `totalAccepted` fixed) never increases
it, and increasing `id` never decreases it — for every item and every
parameter triple the scoring function can receive. -/
theorem claim_C5 (p : CanonicalItem) (mid : ℤ) (msl mal : ℝ) :
    (∀ r1 r2 : ℚ, r1 ≤ r2 →
        round2 (trueScoreUnrounded { p with acceptanceRate := r2 } mid msl mal) ≤
          round2 (trueScoreUnrounded { p with acceptanceRate := r1 } mid msl mal)) ∧
    (∀ s1 s2 : ℤ, s1 ≤ s2 →
        round2 (trueScoreUnrounded { p with totalSubmissions := s2 } mid msl mal) ≤
          round2 (trueScoreUnrounded { p with totalSubmissions := s1 } mid msl mal)) ∧
    (∀ i1 i2 : ℤ, i1 ≤ i2 →
        round2 (trueScoreUnrounded { p with id := i1 } mid msl mal) ≤
          round2 (trueScoreUnrounded { p with id := i2 } mid msl mal)) := by
  refine ⟨?_, ?_, ?_⟩
  · intro r1 r2 hr
    apply round2_mono
    simp only [trueScoreUnrounded, WEIGHTS_acceptance_rate_impact]
    have : (r1:ℝ) ≤ (r2:ℝ) := by exact_mod_cast hr
    linarith
  · intro s1 s2 hs
    apply round2_mono
    simp only [trueScoreUnrounded]
    have := popularityTerm_anti hs msl
    linarith
  · intro i1 i2 hi
    apply round2_mono
    simp only [trueScoreUnrounded]
    have := newnessTerm_mono hi mid
    linarith

/-- Witness for C5 at the concrete example item and concrete field
changes. -/
theorem claim_C5_witness :
    round2 (trueScoreUnrounded { itemC3 with acceptanceRate := 2/10 } 3000 1 1) ≤
      round2 (trueScoreUnrounded { itemC3 with acceptanceRate := 1/10 } 3000 1 1) ∧
    round2 (trueScoreUnrounded { itemC3 with totalSubmissions := 6000 } 3000 1 1) ≤
      round2 (trueScoreUnrounded { itemC3 with totalSubmissions := 5000 } 3000 1 1) ∧
    round2 (trueScoreUnrounded { itemC3 with id := 2900 } 3000 1 1) ≤
      round2 (trueScoreUnrounded { itemC3 with id := 2901 } 3000 1 1) :=
  ⟨(claim_C5 itemC3 3000 1 1).1 (1/10) (2/10) (by norm_num),
    (claim_C5 itemC3 3000 1 1).2.1 5000 6000 (by norm_num),
    (claim_C5 itemC3 3000 1 1).2.2 2900 2901 (by norm_num)⟩

/-- C3: scoring the spec's example item (`Hard`, acceptance 0.10,
500 accepted, 5000 submitted, id 2900) against the corpus maxima
`maxId = 3000`, `maxSubmitted = 2000000`, `maxAccepted = 1000000` stores
exactly `round(450 + 0.9*300 + (1 - ln 501 / ln 1000001)*150
+ (ln 5001 / ln 2000001)*(-80) + (2900/3000)*70, 2)`. -/
theorem claim_C3 :
    (score_with_stats itemC3 3000 2000000 1000000).trueDifficultyScore =
      some (round2 (450 + 0.9 * 300 + (1 - Real.log 501 / Real.log 1000001) * 150
        + Real.log 5001 / Real.log 2000001 * (-80) + 2900 / 3000 * 70)) := by
  have hsub : (if 0 < (2000000:ℤ) then log1p ((2000000:ℤ):ℝ) else 1.0) =
      Real.log 2000001 := by
    rw [if_pos (by norm_num : (0:ℤ) < 2000000), log1p]
    norm_num
  have hacc : (if 0 < (1000000:ℤ) then log1p ((1000000:ℤ):ℝ) else 1.0) =
      Real.log 1000001 := by
    rw [if_pos (by norm_num : (0:ℤ) < 1000000), log1p]
    norm_num
  rw [score_with_stats, hsub, hacc, calculate_true_difficulty_score]
  show some (round2 (trueScoreUnrounded itemC3 3000
    (Real.log 2000001) (Real.log 1000001))) = _
  congr 1
  congr 1
  have hl1 : (0:ℝ) < Real.log 1000001 := Real.log_pos (by norm_num)
  have hl2 : (0:ℝ) < Real.log 2000001 := Real.log_pos (by norm_num)
  have hbase : DIFFICULTY_SCORE_BASE_MAP itemC3.difficulty = 450 := by
    rw [show itemC3.difficulty = difficultyHard from rfl, DIFFICULTY_SCORE_BASE_MAP,
      if_neg (by decide), if_neg (by decide), if_pos rfl]
  have hlow : lowAcceptedTerm itemC3.totalAccepted (Real.log 1000001) =
      (1 - Real.log 501 / Real.log 1000001) * 150 := by
    rw [show itemC3.totalAccepted = (500:ℤ) from rfl, lowAcceptedTerm,
      if_pos ⟨by norm_num, hl1⟩, WEIGHTS_low_total_accepted_penalty, log1p]
    norm_num
  have hpop : popularityTerm itemC3.totalSubmissions (Real.log 2000001) =
      Real.log 5001 / Real.log 2000001 * (-80) := by
    rw [show itemC3.totalSubmissions = (5000:ℤ) from rfl, popularityTerm,
      if_pos ⟨by norm_num, hl2⟩, WEIGHTS_high_popularity_discount, log1p]
    norm_num
  have hnew : newnessTerm itemC3.id 3000 = 2900 / 3000 * 70 := by
    rw [show itemC3.id = (2900:ℤ) from rfl, newnessTerm,
      if_pos (by norm_num : (0:ℤ) < 3000), WEIGHTS_newness_premium]
    norm_num
  rw [trueScoreUnrounded, hbase, hlow, hpop, hnew, WEIGHTS_acceptance_rate_impact,
    show itemC3.acceptanceRate = (1/10 : ℚ) from rfl]
  push_cast
  norm_num
